import Mathlib

/-!
Verification of the ARGUS document-ingestion pipeline core
(`src/functionapp/ai_ocr/process.py`).

The pipeline state machine is embedded shallowly: the per-document record
is a structure, the Python dict `document['state']` is a finite map from
key strings to state values, in-place mutation becomes explicit record
threading, and raised exceptions become `Except` results that carry the
mutated record alongside the outcome.  External capabilities (OCR,
structured extraction, summarization, the markdown-JSON parser) are
represented by their outcomes for the run under consideration; the Cosmos
upsert is a store side effect that persists the whole record and cannot
change it, so it is not reflected in the record state.
-/

namespace ARGUS

/-- Values stored in the record's `state` dictionary: boolean stage flags
and numeric stage durations.  Durations are abstracted as naturals since
no property computes with their float values. -/
inductive StVal
  | flag (b : Bool)
  | seconds (t : Nat)
  deriving DecidableEq

/-- A Python dict keyed by strings, as a lookup function; assignment
`d[k] = v` is pointwise update. -/
def Dict : Type := String → Option StVal

/-- `d[k] = v` on a Python dict. -/
def dictSet (d : Dict) (k : String) (v : StVal) : Dict :=
  fun q => if q = k then some v else d q

/-- The `properties` group of the record: fixed at creation. -/
structure DocProperties where
  blob_name : String
  blob_size : Nat
  request_timestamp : String
  deriving DecidableEq

/-- The `extracted_data` group of the record.  `gpt_extraction_output`
holds the structured object as text (initially the empty object). -/
structure ExtractedData where
  classification : String
  accuracy : Nat
  ocr_output : String
  gpt_extraction_output : String
  gpt_summary_output : String
  deriving DecidableEq

/-- The `model_input` group of the record: fixed at creation.
`model_deployment` comes from the environment and may be unset. -/
structure ModelInput where
  model_deployment : Option String
  model_prompt : String
  example_schema : String
  deriving DecidableEq

/-- The per-document record persisted to the store. -/
structure Document where
  id : String
  properties : DocProperties
  state : Dict
  extracted_data : ExtractedData
  model_input : ModelInput
  errors : List String

/-- `file_name.replace('/', '__')` character by character: every `/`
becomes two underscores, all other characters are kept. -/
def normalizeId : List Char → List Char
  | [] => []
  | c :: cs => if c = '/' then '_' :: '_' :: normalizeId cs else c :: normalizeId cs

/-- The initial `state` dict literal of `initialize_document`: the five
stage flags, all `False`. -/
def initState : Dict := fun k =>
  if k = "file_landed" then some (.flag false)
  else if k = "ocr_completed" then some (.flag false)
  else if k = "gpt_extraction_completed" then some (.flag false)
  else if k = "gpt_summary_completed" then some (.flag false)
  else if k = "processing_completed" then some (.flag false)
  else none

/-- `initialize_document(file_name, file_size, prompt, json_schema,
request_timestamp)`.  The id is the file name with `/` replaced by `__`;
the timestamp is carried as its ISO string; `model_deployment` is the
environment value read at creation. -/
def init_document (file_name : String) (file_size : Nat) (prompt : String)
    (json_schema : String) (request_timestamp : String)
    (model_deployment : Option String) : Document :=
  { id := String.mk (normalizeId file_name.toList)
    properties :=
      { blob_name := file_name
        blob_size := file_size
        request_timestamp := request_timestamp }
    state := initState
    extracted_data :=
      { classification := "N/A"
        accuracy := 0
        ocr_output := ""
        gpt_extraction_output := "\x7b\x7d"
        gpt_summary_output := "" }
    model_input :=
      { model_deployment := model_deployment
        model_prompt := prompt
        example_schema := json_schema }
    errors := [] }

/-- `update_state(document, container, state_name, state, processing_time)`:
sets `document['state'][state_name]`, and when a processing time is given
also `document['state'][state_name + "_time_seconds"]`, then upserts the
whole record (the upsert is a store effect and leaves the record as is). -/
def update_state (document : Document) (state_name : String) (state : Bool)
    (processing_time : Option Nat) : Document :=
  let document :=
    { document with state := dictSet document.state state_name (.flag state) }
  match processing_time with
  | some t =>
      { document with
          state := dictSet document.state (state_name ++ "_time_seconds") (.seconds t) }
  | none => document

/-- Modelled from the spec: `get_size_of_base64_images` (not under `src/`)
returns the total encoded size of the images, so an image is represented
by its encoded size in bytes and the total is the sum. -/
def get_size_of_base64_images (imgs : List Nat) : Nat := imgs.sum

/-- The reduction loop of `run_ocr_and_gpt`
(`while get_size_of_base64_images(imgs) > max_size: imgs.pop()`), embedded
with an explicit iteration bound: each pass removes the last image, and the
condition is false on the empty list, so `imgs.length` passes always
suffice. -/
def reduceLoopAux : Nat → Nat → List Nat → List Nat
  | 0, _, imgs => imgs
  | fuel + 1, max_size, imgs =>
    if max_size < get_size_of_base64_images imgs then
      reduceLoopAux fuel max_size imgs.dropLast
    else imgs

/-- The size-reduction while loop, entered with enough passes to reach a
fixed point. -/
def reduceLoop (max_size : Nat) (imgs : List Nat) : List Nat :=
  reduceLoopAux imgs.length max_size imgs

/-- The full image-reduction step of `run_ocr_and_gpt`: truncate to
`config.max_images` (`imgs[:config.max_images]`), then shrink from the end
until the total encoded size fits the byte budget. -/
def reduce_images (max_images : Nat) (max_size : Nat) (imgs : List Nat) : List Nat :=
  reduceLoop max_size (imgs.take max_images)

/-- Modelled from the spec: the configuration (`ai_ocr.model.Config`, not
under `src/`) supplies the maximum image count per document and the
maximum combined image payload size in megabytes. -/
structure Config where
  max_images : Nat
  gpt_vision_limit_mb : Nat
  deriving DecidableEq

/-- Whether an `Except` outcome is a normal return. -/
def exOk : Except String String → Bool
  | .ok _ => true
  | .error _ => false

/-- Errors surfaced by `run_ocr_and_gpt`: a capability exception
propagating, or `parse_json_markdown` failing on the extraction response
(the distinct malformed-output kind). -/
inductive PipeErr
  | capability (msg : String)
  | malformedExtractionOutput
  deriving DecidableEq

/-- Outcomes of the external calls made during one `run_ocr_and_gpt`
invocation: the OCR capability result (`.content` on success), the sizes of
the page images rasterized into scratch space, the structured-extraction
capability result, the markdown-JSON parser (modelled from the spec:
`parse_json_markdown` returns the canonical parsed text or fails), and the
measured stage durations. -/
structure Caps where
  ocr : Except String String
  pageImages : List Nat
  structured : Except String String
  parse : String → Option String
  ocrSeconds : Nat
  extractionSeconds : Nat

/-- What a `run_ocr_and_gpt` invocation leaves behind: the record as
mutated so far, the reduced image set handed to the extraction capability
(absent when that call was never reached), whether the scratch-image
cleanup loop executed, and the returned value or the exception that
propagated. -/
structure RunOutput where
  doc : Document
  imagesSent : Option (List Nat)
  cleanupRan : Bool
  result : Except PipeErr (String × String × List (String × Nat))

/-- `run_ocr_and_gpt(file_to_ocr, prompt, json_schema, document, container,
config)`: OCR, mark `ocr_completed`, rasterize and reduce the page images,
extract, mark `gpt_extraction_completed`, delete the scratch images, then
parse the response.  An exception at any point propagates with the record
as mutated up to that point. -/
def run_ocr_and_gpt (caps : Caps) (config : Config) (document : Document) :
    RunOutput :=
  match caps.ocr with
  | .error e => ⟨document, none, false, .error (.capability e)⟩
  | .ok ocrContent =>
    let document := update_state document "ocr_completed" true (some caps.ocrSeconds)
    let imgs := caps.pageImages.take config.max_images
    let max_size := config.gpt_vision_limit_mb * 1024 * 1024
    let imgs := reduceLoop max_size imgs
    match caps.structured with
    | .error e => ⟨document, some imgs, false, .error (.capability e)⟩
    | .ok structuredContent =>
      let document :=
        update_state document "gpt_extraction_completed" true (some caps.extractionSeconds)
      match caps.parse structuredContent with
      | none => ⟨document, some imgs, true, .error .malformedExtractionOutput⟩
      | some x =>
        ⟨document, some imgs, true,
          .ok (ocrContent, x,
            [("ocr_processing_time", caps.ocrSeconds),
             ("gpt_extraction_time", caps.extractionSeconds)])⟩

/-- What a `process_gpt_summary` invocation leaves behind: the mutated
record, the warning messages logged, and the normal return or the
re-raised exception. -/
structure SummaryOutput where
  doc : Document
  warnings : List String
  result : Except String Unit

/-- `process_gpt_summary(ocr_response, document, container)`: probe the
optional `categorization` attribute (defaulting to "N/A" with a warning
when absent), call the summarization capability, and on success mark
`gpt_summary_completed` and store classification and summary text; on a
summarization failure append one "NL processing error: ..." entry, mark
`gpt_summary_completed` false, and re-raise. -/
def process_gpt_summary (summary : Except String String)
    (categorization : Option String) (summarySeconds : Nat)
    (document : Document) : SummaryOutput :=
  let cls : String × List String :=
    match categorization with
    | some c => (c, [])
    | none =>
      ("N/A", ["Cannot find \x27categorization\x27 in output schema! Logging it as N/A..."])
  match summary with
  | .ok content =>
    let document := update_state document "gpt_summary_completed" true (some summarySeconds)
    let document :=
      { document with
          extracted_data :=
            { document.extracted_data with
                classification := cls.1
                gpt_summary_output := content } }
    ⟨document, cls.2, .ok ()⟩
  | .error e =>
    let document := { document with errors := document.errors ++ ["NL processing error: " ++ e] }
    let document := update_state document "gpt_summary_completed" false none
    ⟨document, cls.2, .error e⟩

/-- A freshly initialized record used by concrete evaluations. -/
def exDoc : Document := init_document "f.pdf" 1 "p" "s" "t" none

/-- A run whose extraction capability returns text the parser rejects. -/
def badCaps : Caps :=
  { ocr := .ok "text"
    pageImages := []
    structured := .ok "oops"
    parse := fun _ => none
    ocrSeconds := 1
    extractionSeconds := 1 }

/-- A run whose OCR capability call raises. -/
def ocrFailCaps : Caps :=
  { ocr := .error "ocr down"
    pageImages := [5]
    structured := .ok "x"
    parse := fun _ => some "x"
    ocrSeconds := 0
    extractionSeconds := 0 }

/-- A run whose structured-extraction capability call raises. -/
def extFailCaps : Caps :=
  { ocr := .ok "text"
    pageImages := [3]
    structured := .error "llm down"
    parse := fun _ => none
    ocrSeconds := 0
    extractionSeconds := 0 }

/-- The configuration used by concrete evaluations: at most 10 images,
20 MB budget. -/
def exConfig : Config := ⟨10, 20⟩

theorem dropLast_isPrefix (l : List Nat) : l.dropLast <+: l := by
  rw [List.dropLast_eq_take]
  exact List.take_prefix _ _

theorem reduceLoopAux_isPrefix (fuel max_size : Nat) (imgs : List Nat) :
    reduceLoopAux fuel max_size imgs <+: imgs := by
  induction fuel generalizing imgs with
  | zero => exact List.prefix_refl _
  | succ n ih =>
    rw [reduceLoopAux]
    split
    · exact (ih imgs.dropLast).trans (dropLast_isPrefix imgs)
    · exact List.prefix_refl _

theorem reduceLoopAux_sum_le (fuel max_size : Nat) (imgs : List Nat)
    (hfuel : imgs.length ≤ fuel) :
    (reduceLoopAux fuel max_size imgs).sum ≤ max_size := by
  induction fuel generalizing imgs with
  | zero =>
    have : imgs = [] := List.length_eq_zero.mp (Nat.le_zero.mp hfuel)
    subst this
    simp [reduceLoopAux]
  | succ n ih =>
    rw [reduceLoopAux]
    split
    · rename_i h
      apply ih
      have hne : imgs ≠ [] := by
        intro he
        subst he
        simp [get_size_of_base64_images] at h
      have := List.length_pos.mpr hne
      rw [List.length_dropLast]
      omega
    · rename_i h
      simpa [get_size_of_base64_images] using Nat.le_of_not_lt h

theorem reduceLoop_isPrefix (max_size : Nat) (imgs : List Nat) :
    reduceLoop max_size imgs <+: imgs :=
  reduceLoopAux_isPrefix _ _ _

theorem reduceLoop_sum_le (max_size : Nat) (imgs : List Nat) :
    (reduceLoop max_size imgs).sum ≤ max_size :=
  reduceLoopAux_sum_le _ _ _ (Nat.le_refl _)

/-- C3: the image-reduction step returns a prefix of the input of size at
most `min N maxCount` whose total encoded size is at most the budget, it
is deterministic on identical inputs, and on sizes
[9MB, 6MB, 3MB, 8MB, 2MB] with maxCount 10 and a 20MB budget it returns
exactly the first 3 images. -/
theorem C3_image_reducer_contract (max_images max_size : Nat) (imgs : List Nat) :
    reduce_images max_images max_size imgs <+: imgs ∧
    (reduce_images max_images max_size imgs).length ≤ min imgs.length max_images ∧
    (reduce_images max_images max_size imgs).sum ≤ max_size ∧
    reduce_images max_images max_size imgs = reduce_images max_images max_size imgs ∧
    reduce_images 10 (20 * 1024 * 1024)
        [9 * 1024 * 1024, 6 * 1024 * 1024, 3 * 1024 * 1024, 8 * 1024 * 1024,
          2 * 1024 * 1024] =
      [9 * 1024 * 1024, 6 * 1024 * 1024, 3 * 1024 * 1024] := by
  refine ⟨?_, ?_, reduceLoop_sum_le _ _, rfl, by decide⟩
  · exact (reduceLoop_isPrefix _ _).trans (List.take_prefix _ _)
  · have h1 := (reduceLoop_isPrefix (max_size) (imgs.take max_images)).length_le
    have h2 : (imgs.take max_images).length = min max_images imgs.length :=
      List.length_take _ _
    simp only [reduce_images]
    omega

/-- C4: the reduction loop terminates on every input: each iteration
strictly shrinks the image list, the empty input yields the empty list
without error, and a single image over the budget ends at the empty
list. -/
theorem C4_image_reducer_termination (max_size s : Nat) (l : List Nat) :
    reduceLoop max_size ([] : List Nat) = [] ∧
    (max_size < l.sum →
      l.dropLast.length < l.length ∧
      reduceLoop max_size l = reduceLoop max_size l.dropLast) ∧
    (max_size < s → reduceLoop max_size [s] = []) := by
  refine ⟨rfl, ?_, ?_⟩
  · intro h
    cases l with
    | nil => simp at h
    | cons a t =>
      constructor
      · simp [List.length_dropLast]
      · simp only [reduceLoop, List.length_cons, reduceLoopAux,
          get_size_of_base64_images, if_pos h, List.length_dropLast]
        rfl
  · intro h
    simp [reduceLoop, reduceLoopAux, get_size_of_base64_images, h]

/-- Witness for C4 at the concrete budget 0, image list [1] and size 1. -/
theorem C4_image_reducer_termination_witness :
    (0 < List.sum [1] ∧
      List.dropLast [1] = ([] : List Nat) ∧
      reduceLoop 0 [1] = reduceLoop 0 (List.dropLast [1])) ∧
    (0 < 1 ∧ reduceLoop 0 [1] = []) :=
  ⟨⟨by decide, by decide,
      ((C4_image_reducer_termination 0 1 [1]).2.1 (by decide)).2⟩,
    ⟨by decide, (C4_image_reducer_termination 0 1 [1]).2.2 (by decide)⟩⟩

theorem slash_not_mem_normalizeId (l : List Char) : '/' ∉ normalizeId l := by
  induction l with
  | nil => simp [normalizeId]
  | cons c cs ih =>
    simp only [normalizeId]
    split
    · simp only [List.mem_cons]
      rintro (h | h | h)
      · exact absurd h.symm (by decide)
      · exact absurd h.symm (by decide)
      · exact ih h
    · rename_i hc
      simp only [List.mem_cons]
      rintro (h | h)
      · exact hc h.symm
      · exact ih h

theorem normalizeId_inj {l₁ l₂ : List Char} (h1 : '_' ∉ l₁) (h2 : '_' ∉ l₂)
    (h : normalizeId l₁ = normalizeId l₂) : l₁ = l₂ := by
  induction l₁ generalizing l₂ with
  | nil =>
    cases l₂ with
    | nil => rfl
    | cons d ds =>
      simp only [normalizeId] at h
      split at h <;> simp at h
  | cons c cs ih =>
    cases l₂ with
    | nil =>
      simp only [normalizeId] at h
      split at h <;> simp at h
    | cons d ds =>
      have hc : c ≠ '_' := fun he => h1 (he ▸ List.mem_cons_self _ _)
      have hd : d ≠ '_' := fun he => h2 (he ▸ List.mem_cons_self _ _)
      have h1' : '_' ∉ cs := fun hm => h1 (List.mem_cons_of_mem _ hm)
      have h2' : '_' ∉ ds := fun hm => h2 (List.mem_cons_of_mem _ hm)
      simp only [normalizeId] at h
      by_cases hcs : c = '/' <;> by_cases hds : d = '/'
      · rw [if_pos hcs, if_pos hds] at h
        simp only [List.cons.injEq, true_and] at h
        rw [hcs, hds, ih h1' h2' h]
      · rw [if_pos hcs, if_neg hds] at h
        simp only [List.cons.injEq] at h
        exact absurd h.1.symm hd
      · rw [if_neg hcs, if_pos hds] at h
        simp only [List.cons.injEq] at h
        exact absurd h.1 hc
      · rw [if_neg hcs, if_neg hds] at h
        simp only [List.cons.injEq] at h
        rw [h.1, ih h1' h2' h.2]

/-- C8 fails as stated: the two distinct paths `a/b` and `a__b` receive
the same record id, so the separator normalization is not injective. -/
theorem C8_counterexample :
    (init_document "a/b" 0 "" "" "" none).id =
      (init_document "a__b" 0 "" "" "" none).id ∧
    ("a/b" : String) ≠ "a__b" := by
  constructor
  · decide
  · decide

/-- C8 amended: the record-id derivation of `initialize_document` is
injective on file paths that contain no underscore character; for two
such distinct paths the derived ids are distinct. -/
theorem C8_id_injective_on_underscore_free (x y : String) (fs fs2 : Nat)
    (p p2 js js2 ts ts2 : String) (md md2 : Option String)
    (hx : '_' ∉ x.toList) (hy : '_' ∉ y.toList) (hne : x ≠ y) :
    (init_document x fs p js ts md).id ≠ (init_document y fs2 p2 js2 ts2 md2).id := by
  intro h
  apply hne
  have hdata : normalizeId x.toList = normalizeId y.toList := by
    have := congrArg String.data h
    simpa [init_document] using this
  have hlist := normalizeId_inj hx hy hdata
  exact String.ext hlist

/-- Witness for C8 amended at the underscore-free names a.pdf and b.pdf. -/
theorem C8_id_injective_on_underscore_free_witness :
    ('_' ∉ "a.pdf".toList ∧ '_' ∉ "b.pdf".toList ∧ ("a.pdf" : String) ≠ "b.pdf") ∧
    (init_document "a.pdf" 0 "" "" "" none).id ≠
      (init_document "b.pdf" 0 "" "" "" none).id :=
  ⟨⟨by decide, by decide, by decide⟩,
    C8_id_injective_on_underscore_free "a.pdf" "b.pdf" 0 0 "" "" "" "" "" "" none none
      (by decide) (by decide) (by decide)⟩

/-- C9: for every file name containing the path separator, the record id
derived by `initialize_document` contains no separator, and the
derivation is deterministic. -/
theorem C9_id_separator_free (fn : String) (fs : Nat) (p js ts : String)
    (md : Option String) (h : '/' ∈ fn.toList) :
    '/' ∉ (init_document fn fs p js ts md).id.toList ∧
    (init_document fn fs p js ts md).id = (init_document fn fs p js ts md).id := by
  refine ⟨?_, rfl⟩
  simp only [init_document]
  exact slash_not_mem_normalizeId _

/-- Witness for C9 at the concrete name a/b.pdf. -/
theorem C9_id_separator_free_witness :
    '/' ∈ "a/b.pdf".toList ∧
    '/' ∉ (init_document "a/b.pdf" 1 "p" "s" "t" none).id.toList :=
  ⟨by decide,
    (C9_id_separator_free "a/b.pdf" 1 "p" "s" "t" none (by decide)).1⟩

theorem name_ne_append_time (name : String) : name ≠ name ++ "_time_seconds" := by
  intro h
  have := congrArg String.length h
  simp [String.length_append] at this
  exact absurd this (by decide)

/-- C10: `update_state` writes the named flag entry and, only when a
duration is supplied, the paired `_time_seconds` entry; the id,
properties, extracted data, model input, errors and every other state
entry are unchanged. -/
theorem C10_update_state_frame (doc : Document) (name : String) (b : Bool)
    (pt : Option Nat) :
    (update_state doc name b pt).id = doc.id ∧
    (update_state doc name b pt).properties = doc.properties ∧
    (update_state doc name b pt).extracted_data = doc.extracted_data ∧
    (update_state doc name b pt).model_input = doc.model_input ∧
    (update_state doc name b pt).errors = doc.errors ∧
    (update_state doc name b pt).state name = some (.flag b) ∧
    (∀ t, pt = some t →
      (update_state doc name b pt).state (name ++ "_time_seconds") = some (.seconds t)) ∧
    (pt = none → ∀ k, k ≠ name → (update_state doc name b pt).state k = doc.state k) ∧
    (∀ k, k ≠ name → k ≠ name ++ "_time_seconds" →
      (update_state doc name b pt).state k = doc.state k) := by
  have hts := name_ne_append_time name
  cases pt with
  | none =>
    refine ⟨rfl, rfl, rfl, rfl, rfl, ?_, ?_, ?_, ?_⟩
    · simp [update_state, dictSet]
    · intro t ht
      exact Option.noConfusion ht
    · intro _ k hk
      simp [update_state, dictSet, hk]
    · intro k hk _
      simp [update_state, dictSet, hk]
  | some t =>
    refine ⟨rfl, rfl, rfl, rfl, rfl, ?_, ?_, ?_, ?_⟩
    · simp [update_state, dictSet, hts]
    · intro t' ht'
      injection ht' with h
      subst h
      simp [update_state, dictSet]
    · intro hnone
      exact Option.noConfusion hnone
    · intro k hk hk2
      simp [update_state, dictSet, hk, hk2]

/-- Witness for C10 on a fresh record: setting `ocr_completed` with a
duration leaves `file_landed` untouched and writes the flag. -/
theorem C10_update_state_frame_witness :
    (("file_landed" : String) ≠ "ocr_completed" ∧
      ("file_landed" : String) ≠ "ocr_completed" ++ "_time_seconds") ∧
    (update_state exDoc "ocr_completed" true (some 3)).state "file_landed" =
      exDoc.state "file_landed" ∧
    (update_state exDoc "ocr_completed" true (some 3)).state "ocr_completed" =
      some (.flag true) :=
  ⟨⟨by decide, by decide⟩,
    (C10_update_state_frame exDoc "ocr_completed" true (some 3)).2.2.2.2.2.2.2.2
      "file_landed" (by decide) (by decide),
    (C10_update_state_frame exDoc "ocr_completed" true (some 3)).2.2.2.2.2.1⟩

/-- C6: a summarization-capability failure appends exactly one error
entry prefixed "NL processing error:", sets `gpt_summary_completed` to
false, leaves the extraction data untouched, and re-raises the failure. -/
theorem C6_summary_failure_behavior (e : String) (cat : Option String)
    (secs : Nat) (d : Document) :
    (process_gpt_summary (.error e) cat secs d).doc.errors =
      d.errors ++ ["NL processing error: " ++ e] ∧
    (process_gpt_summary (.error e) cat secs d).doc.state "gpt_summary_completed" =
      some (.flag false) ∧
    (process_gpt_summary (.error e) cat secs d).doc.extracted_data =
      d.extracted_data ∧
    (process_gpt_summary (.error e) cat secs d).result = .error e := by
  cases cat <;> simp [process_gpt_summary, update_state, dictSet]

/-- C7: a missing `categorization` field never fails the summary stage:
the classification defaults to "N/A", a warning is logged, and no error
entry is produced on its account. -/
theorem C7_missing_categorization_defaults (s : String) (secs : Nat) (d : Document) :
    (process_gpt_summary (.ok s) none secs d).result = .ok () ∧
    (process_gpt_summary (.ok s) none secs d).doc.extracted_data.classification =
      "N/A" ∧
    (process_gpt_summary (.ok s) none secs d).warnings =
      ["Cannot find \x27categorization\x27 in output schema! Logging it as N/A..."] ∧
    (process_gpt_summary (.ok s) none secs d).doc.errors = d.errors := by
  simp [process_gpt_summary, update_state, dictSet]

/-- C5 fails as stated: when the extraction capability call itself raises,
the scratch-image cleanup loop is never reached, so the page images are
not deleted on that failure path. -/
theorem C5_counterexample :
    (run_ocr_and_gpt extFailCaps exConfig exDoc).result =
      .error (.capability "llm down") ∧
    (run_ocr_and_gpt extFailCaps exConfig exDoc).cleanupRan = false := by
  exact ⟨rfl, rfl⟩

/-- C5 amended: the scratch-image cleanup runs exactly when both the OCR
call and the extraction capability call return successfully; in
particular it does run when only the subsequent markdown-JSON parse
fails, but not when the extraction call itself raises. -/
theorem C5_cleanup_iff_extraction_ok (caps : Caps) (config : Config) (d : Document) :
    (run_ocr_and_gpt caps config d).cleanupRan =
      (exOk caps.ocr && exOk caps.structured) := by
  obtain ⟨ocr, pages, structured, par, t1, t2⟩ := caps
  cases ocr with
  | error e => rfl
  | ok oc =>
    cases structured with
    | error e => rfl
    | ok sc =>
      simp only [run_ocr_and_gpt, exOk]
      cases par sc <;> rfl

/-- C1 fails as stated: on a run whose extraction response is not
parseable as markdown-fenced JSON, the malformed-output error is
surfaced, but `gpt_extraction_completed` is not left false — the flag was
already set true when the capability call returned, before parsing. -/
theorem C1_counterexample :
    (run_ocr_and_gpt badCaps exConfig exDoc).result =
      .error .malformedExtractionOutput ∧
    ¬ (run_ocr_and_gpt badCaps exConfig exDoc).doc.state "gpt_extraction_completed" =
        some (.flag false) := by
  constructor
  · rfl
  · decide

/-- C1 amended: each stage's completion flag is true exactly when that
stage's capability call returned successfully; when the extraction
response is not parseable, the distinct malformed-output error is
surfaced while `gpt_extraction_completed` remains true, having been set
when the capability call returned. -/
theorem C1_flag_iff_capability (caps : Caps) (config : Config)
    (fn : String) (fs : Nat) (p js ts : String) (md : Option String) :
    ((run_ocr_and_gpt caps config (init_document fn fs p js ts md)).doc.state
        "ocr_completed" = some (.flag true) ↔ exOk caps.ocr = true) ∧
    ((run_ocr_and_gpt caps config (init_document fn fs p js ts md)).doc.state
        "gpt_extraction_completed" = some (.flag true) ↔
      (exOk caps.ocr = true ∧ exOk caps.structured = true)) ∧
    (∀ c, caps.structured = .ok c → caps.parse c = none → exOk caps.ocr = true →
      (run_ocr_and_gpt caps config (init_document fn fs p js ts md)).result =
          .error .malformedExtractionOutput ∧
      (run_ocr_and_gpt caps config (init_document fn fs p js ts md)).doc.state
          "gpt_extraction_completed" = some (.flag true)) ∧
    (∀ s cat secs d,
      (process_gpt_summary s cat secs d).doc.state "gpt_summary_completed" =
        some (.flag (exOk s))) := by
  obtain ⟨ocr, pages, structured, par, t1, t2⟩ := caps
  refine ⟨?_, ?_, ?_, ?_⟩
  · cases ocr with
    | error e =>
      simp [run_ocr_and_gpt, exOk, init_document, initState]
    | ok oc =>
      cases structured with
      | error e =>
        simp [run_ocr_and_gpt, exOk, update_state, dictSet]
      | ok sc =>
        simp only [run_ocr_and_gpt, exOk]
        cases par sc <;>
          simp [update_state, dictSet]
  · cases ocr with
    | error e =>
      simp [run_ocr_and_gpt, exOk, init_document, initState]
    | ok oc =>
      cases structured with
      | error e =>
        simp [run_ocr_and_gpt, exOk, update_state, dictSet, init_document, initState]
      | ok sc =>
        simp only [run_ocr_and_gpt, exOk]
        cases par sc <;>
          simp [update_state, dictSet]
  · intro c hc hp hocr
    cases ocr with
    | error e => simp [exOk] at hocr
    | ok oc =>
      have hp' : par c = none := hp
      have hc' : structured = Except.ok c := hc
      subst hc'
      simp only [run_ocr_and_gpt]
      rw [hp']
      exact ⟨rfl, by simp [update_state, dictSet]⟩
  · intro s cat secs d
    cases s <;> cases cat <;> simp [process_gpt_summary, exOk, update_state, dictSet]

/-- Witness for C1 amended: the concrete bad run surfaces the
malformed-output error with the extraction flag true. -/
theorem C1_flag_iff_capability_witness :
    (badCaps.structured = .ok "oops" ∧ badCaps.parse "oops" = none ∧
      exOk badCaps.ocr = true) ∧
    ((run_ocr_and_gpt badCaps exConfig (init_document "f.pdf" 1 "p" "s" "t" none)).result =
        .error .malformedExtractionOutput ∧
      (run_ocr_and_gpt badCaps exConfig
          (init_document "f.pdf" 1 "p" "s" "t" none)).doc.state
        "gpt_extraction_completed" = some (.flag true)) :=
  ⟨⟨rfl, rfl, rfl⟩,
    (C1_flag_iff_capability badCaps exConfig "f.pdf" 1 "p" "s" "t" none).2.2.1
      "oops" rfl rfl rfl⟩

/-- C2 fails as stated: an OCR-capability failure propagates without any
entry being appended to the record's errors sequence. -/
theorem C2_counterexample :
    (run_ocr_and_gpt ocrFailCaps exConfig exDoc).result =
      .error (.capability "ocr down") ∧
    (run_ocr_and_gpt ocrFailCaps exConfig exDoc).doc.errors = [] := by
  exact ⟨rfl, rfl⟩

/-- C2 amended: only the summary stage appends an error entry and marks
its flag false before propagating; OCR and extraction capability
failures propagate leaving the record's errors sequence unchanged (still
empty for a fresh record) and the corresponding flags false. -/
theorem C2_error_append_policy (caps : Caps) (config : Config)
    (fn : String) (fs : Nat) (p js ts : String) (md : Option String)
    (e : String) :
    (caps.ocr = .error e →
      (run_ocr_and_gpt caps config (init_document fn fs p js ts md)).doc.errors = [] ∧
      (run_ocr_and_gpt caps config (init_document fn fs p js ts md)).result =
        .error (.capability e) ∧
      (run_ocr_and_gpt caps config (init_document fn fs p js ts md)).doc.state
        "ocr_completed" = some (.flag false)) ∧
    (caps.structured = .error e →
      (run_ocr_and_gpt caps config (init_document fn fs p js ts md)).doc.errors = [] ∧
      (run_ocr_and_gpt caps config (init_document fn fs p js ts md)).doc.state
        "gpt_extraction_completed" = some (.flag false)) ∧
    (∀ cat secs d,
      (process_gpt_summary (.error e) cat secs d).doc.errors =
        d.errors ++ ["NL processing error: " ++ e] ∧
      (process_gpt_summary (.error e) cat secs d).doc.state "gpt_summary_completed" =
        some (.flag false) ∧
      (process_gpt_summary (.error e) cat secs d).result = .error e) := by
  obtain ⟨ocr, pages, structured, par, t1, t2⟩ := caps
  refine ⟨?_, ?_, ?_⟩
  · intro h
    subst h
    exact ⟨rfl, rfl, by simp [run_ocr_and_gpt, init_document, initState]⟩
  · intro h
    subst h
    cases ocr with
    | error e' =>
      exact ⟨rfl, by simp [run_ocr_and_gpt, init_document, initState]⟩
    | ok oc =>
      exact ⟨rfl, by simp [run_ocr_and_gpt, update_state, dictSet, init_document, initState]⟩
  · intro cat secs d
    cases cat <;> simp [process_gpt_summary, update_state, dictSet]

/-- Witness for C2 amended at a concrete failing OCR run and a concrete
failing summary call. -/
theorem C2_error_append_policy_witness :
    (ocrFailCaps.ocr = .error "ocr down" ∧
      (run_ocr_and_gpt ocrFailCaps exConfig
          (init_document "f.pdf" 1 "p" "s" "t" none)).doc.errors = []) ∧
    (process_gpt_summary (.error "boom") none 0 exDoc).doc.errors =
      exDoc.errors ++ ["NL processing error: " ++ "boom"] :=
  ⟨⟨rfl,
      ((C2_error_append_policy ocrFailCaps exConfig "f.pdf" 1 "p" "s" "t" none
          "ocr down").1 rfl).1⟩,
    ((C2_error_append_policy ocrFailCaps exConfig "f.pdf" 1 "p" "s" "t" none
        "boom").2.2 none 0 exDoc).1⟩

end ARGUS
